import Mathlib

/-!
Verification of the weight-loss-assistant chat service.

Shallow embedding of the TypeScript sources:
  * `src/lib/doubao.ts`       — chat client (`weightLossChat`, message assembly,
    role prompts, error degradation) and, in its second half (doubao-image),
    the image client (`generateFoodImage`, `detectFoodKeywords`,
    `extractFoodDescription`, `buildFoodPrompt`);
  * `src/app/api/chat/route.ts` — the `POST /chat` handler validation.

JavaScript strings are embedded as Lean `String`/`List Char`; `toLowerCase`
is embedded character-wise (`Char.toLower`, which lowercases the ASCII range
— the keyword set is ASCII English plus Chinese, which `toLowerCase` leaves
unchanged).  The regular expressions in `extractFoodDescription` are embedded
as explicit leftmost-match / lazy-quantifier matchers over `List Char`,
mirroring JavaScript `String.prototype.match` semantics (`.` does not match
line terminators; `$` matches only at end of input; the lazy `.+?` prefers
the shortest capture; the scan start advances left to right).
Network effects are embedded by passing the outcome of each `fetch`-based
call as an explicit `Except` value (`.error` = the call threw).
-/

/-- One character of JavaScript regex `.` (without the `s` flag): every
character except the line terminators `\n`, `\r`, U+2028, U+2029. -/
def isDotChar (c : Char) : Bool :=
  !(c = '\n' || c = '\r' || c = Char.ofNat 0x2028 || c = Char.ofNat 0x2029)

/-- Membership in the character class `[，。！？]` used by the extraction
patterns of `extractFoodDescription` (src/lib/doubao.ts, doubao-image part). -/
def isTermChar (c : Char) : Bool :=
  c = '，' || c = '。' || c = '！' || c = '？'

/-- Substring containment on character lists: JavaScript
`s.includes(pat)` (src/lib/doubao.ts line 464). -/
def listContainsSub : List Char → List Char → Bool
  | [], pat => pat.isEmpty
  | c :: t, pat => pat.isPrefixOf (c :: t) || listContainsSub t pat

/-- JavaScript `text.toLowerCase()` embedded character-wise. -/
def lowerStr (s : String) : String :=
  String.mk (s.data.map Char.toLower)

/-- JavaScript `s.includes(pat)` on Lean strings. -/
def strIncludes (s pat : String) : Bool :=
  listContainsSub s.data pat.data

/-- The fixed food keyword list of `detectFoodKeywords`
(src/lib/doubao.ts, doubao-image part, lines 436-461), transcribed verbatim
(including the duplicate entry for bread). -/
def foodKeywords : List String :=
  [ -- 主食类 - Chinese staples
    "米饭", "rice", "面条", "noodles", "饺子", "dumplings", "包子", "steamed buns", "馒头", "bread",
    "面包", "bread", "汉堡", "burger", "披萨", "pizza", "意面", "pasta", "炒饭", "fried rice", "粥", "congee",
    -- 肉类 - Meat
    "鸡", "chicken", "牛肉", "beef", "猪肉", "pork", "羊肉", "lamb", "鱼", "fish", "虾", "shrimp",
    "蟹", "crab", "海鲜", "seafood", "肉", "meat", "烤肉", "barbecue", "炸鸡", "fried chicken", "火锅", "hotpot",
    -- 蔬菜类 - Vegetables
    "蔬菜", "vegetables", "沙拉", "salad", "菜", "dish", "青菜", "greens", "白菜", "cabbage",
    "菠菜", "spinach", "西红柿", "tomato", "黄瓜", "cucumber", "土豆", "potato", "萝卜", "radish",
    -- 水果类 - Fruits
    "水果", "fruit", "苹果", "apple", "香蕉", "banana", "橙子", "orange", "葡萄", "grape",
    "草莓", "strawberry", "西瓜", "watermelon", "柠檬", "lemon", "芒果", "mango",
    -- 零食甜点类 - Snacks & Desserts
    "蛋糕", "cake", "饼干", "cookies", "巧克力", "chocolate", "冰淇淋", "ice cream", "奶茶", "milk tea",
    "咖啡", "coffee", "甜点", "dessert", "零食", "snacks", "薯片", "chips", "糖果", "candy",
    -- 饮料类 - Beverages
    "果汁", "juice", "饮料", "drink", "汽水", "soda", "茶", "tea", "牛奶", "milk", "豆浆", "soy milk",
    -- 调料和烹饪方式 - Cooking methods
    "炒", "stir-fry", "煮", "boil", "蒸", "steam", "烤", "bake", "炸", "fry", "煎", "pan-fry",
    "红烧", "braise", "麻辣", "spicy", "酸甜", "sweet and sour", "咸", "salty", "香辣", "fragrant and spicy",
    -- 通用词 - General terms
    "吃", "eat", "想吃", "want to eat", "食物", "food", "美食", "delicious food", "料理", "cuisine",
    "餐", "meal", "早餐", "breakfast", "午餐", "lunch", "晚餐", "dinner", "宵夜", "midnight snack",
    "小吃", "snack" ]

/-- `detectFoodKeywords` (src/lib/doubao.ts, doubao-image part, lines 435-465):
case-folds the text and tests whether any keyword occurs as a substring. -/
def detectFoodKeywords (text : String) : Bool :=
  let lowerText := lowerStr text
  foodKeywords.any (fun keyword => strIncludes lowerText (lowerStr keyword))

/-- The tail of the lazy loop of `(.+?)(?:[，。！？]|$)`: `acc` (reversed)
already holds at least one captured character; the capture extends one
`.`-matching character at a time and stops at the first terminator character
or at end of input (shortest match wins, as the quantifier is lazy). -/
def captureLoop (acc : List Char) : List Char → Option (List Char)
  | [] => some acc.reverse
  | c :: rest =>
    if isTermChar c then some acc.reverse
    else if isDotChar c then captureLoop (c :: acc) rest
    else none

/-- Matches `(.+?)(?:[，。！？]|$)` at a fixed position: the capture needs at
least one `.`-matching character. -/
def captureUntilTerm : List Char → Option (List Char)
  | [] => none
  | c :: rest => if isDotChar c then captureLoop [c] rest else none

/-- Matches `/trigger(.+?)(?:[，。！？]|$)/` against `text` with JavaScript
`match` semantics: the scan start advances left to right; at each start where
`trigger` literally matches, the lazy capture is attempted on the remainder. -/
def matchAfterTrigger (trigger : List Char) : List Char → Option (List Char)
  | [] => none
  | c :: t =>
    if trigger.isPrefixOf (c :: t) then
      match captureUntilTerm ((c :: t).drop trigger.length) with
      | some cap => some cap
      | none => matchAfterTrigger trigger t
    else matchAfterTrigger trigger t

/-- The lazy loop of `(.+?)trigger` at a fixed start: captures `.`-matching
characters one at a time (at least one) and after each one first tries to
match `trigger` at the current point (shortest capture wins). -/
def goBefore (trigger acc : List Char) : List Char → Option (List Char)
  | [] => none
  | c :: rest =>
    if isDotChar c then
      if trigger.isPrefixOf rest then some (c :: acc).reverse
      else goBefore trigger (c :: acc) rest
    else none

/-- Matches `/(.+?)trigger/` against `text` with JavaScript `match`
semantics: scan starts advance left to right. -/
def matchBeforeTrigger (trigger : List Char) : List Char → Option (List Char)
  | [] => none
  | c :: t =>
    match goBefore trigger [] (c :: t) with
    | some cap => some cap
    | none => matchBeforeTrigger trigger t

/-- The ordered pattern list `eatPatterns` of `extractFoodDescription`
(src/lib/doubao.ts, doubao-image part, lines 472-478). -/
def eatPatterns : List (List Char → Option (List Char)) :=
  [ matchAfterTrigger "想吃".data,
    matchAfterTrigger "吃了".data,
    matchAfterTrigger "吃".data,
    matchBeforeTrigger "好吃".data,
    matchBeforeTrigger "想吃".data ]

/-- The `for (const pattern of eatPatterns)` loop: the first pattern that
matches with a non-empty capture group wins. -/
def tryPatterns : List (List Char → Option (List Char)) → List Char → Option (List Char)
  | [], _ => none
  | p :: ps, msg =>
    match p msg with
    | some cap => if cap.isEmpty then tryPatterns ps msg else some cap
    | none => tryPatterns ps msg

/-- JavaScript `String.prototype.trim`: strip leading and trailing
whitespace (embedded with the ASCII whitespace set of `Char.isWhitespace`). -/
def jsTrim (cap : List Char) : String :=
  String.mk ((cap.dropWhile Char.isWhitespace).reverse.dropWhile Char.isWhitespace).reverse

/-- `extractFoodDescription` (src/lib/doubao.ts, doubao-image part,
lines 470-493): first matching pattern's trimmed capture; otherwise the whole
message if `detectFoodKeywords` fires; otherwise the empty string. -/
def extractFoodDescription (userMessage : String) : String :=
  match tryPatterns eatPatterns userMessage.data with
  | some cap => jsTrim cap
  | none =>
    if detectFoodKeywords userMessage then userMessage
    else ""


/-! ## Chat data model (src/lib/doubao.ts lines 8-39) -/

/-- The `role` union of the `ChatMessage` interface. -/
inductive ChatRole where
  | system
  | user
  | assistant
  deriving Repr, DecidableEq

/-- One element of the structured (array) form of `ChatMessage.content`:
`{ type: string; text?: string; image_url?: { url: string } }`. -/
structure ContentPart where
  type : String
  text : Option String
  image_url : Option String
  deriving Repr, DecidableEq

/-- `ChatMessage.content`: `string | Array<...>`. -/
inductive MessageContent where
  | str (s : String)
  | parts (l : List ContentPart)
  deriving Repr, DecidableEq

/-- The `ChatMessage` interface. -/
structure ChatMessage where
  role : ChatRole
  content : MessageContent
  deriving Repr, DecidableEq

/-- One element of `ChatCompletionResponse.choices`. -/
structure ChatChoice where
  index : Nat
  message : ChatMessage
  finish_reason : String
  deriving Repr, DecidableEq

/-- `ChatCompletionResponse`, restricted to the one field `weightLossChat`
reads.  The upstream JSON is cast unchecked (`data as ChatCompletionResponse`),
so `choices` may be absent at runtime; absence is modelled by `none`. -/
structure ChatCompletionResponse where
  choices : Option (List ChatChoice)
  deriving Repr, DecidableEq

/-- Minimal JSON string escaping used to embed `JSON.stringify`. -/
def jsonEscape (s : String) : String :=
  s.data.foldl (fun acc c =>
    if c = '"' then acc ++ "\\\""
    else if c = '\\' then acc ++ "\\\\"
    else if c = '\n' then acc ++ "\\n"
    else if c = '\r' then acc ++ "\\r"
    else if c = '\t' then acc ++ "\\t"
    else acc.push c) ""

/-- `JSON.stringify` of one content part (fields in insertion order,
`undefined` fields omitted). -/
def stringifyPart (p : ContentPart) : String :=
  "\x7b\"type\":\"" ++ jsonEscape p.type ++ "\""
    ++ (match p.text with
        | some t => ",\"text\":\"" ++ jsonEscape t ++ "\""
        | none => "")
    ++ (match p.image_url with
        | some u => ",\"image_url\":\x7b\"url\":\"" ++ jsonEscape u ++ "\"\x7d"
        | none => "")
    ++ "\x7d"

/-- `JSON.stringify` of the structured content array. -/
def stringifyParts (l : List ContentPart) : String :=
  "[" ++ String.intercalate "," (l.map stringifyPart) ++ "]"

/-- `typeof content === 'string' ? content : JSON.stringify(content)`
(src/lib/doubao.ts line 221). -/
def textOfContent : MessageContent → String
  | .str s => s
  | .parts l => stringifyParts l

/-! ## weightLossChat (src/lib/doubao.ts lines 176-260) -/

/-- The `supportive_friend` system prompt (src/lib/doubao.ts lines 179-185). -/
def supportiveFriendPrompt : String :=
  "你是一个温暖、支持的朋友，正在帮助用户进行减肥之旅。你的特点是：
- 鼓励性和积极性
- 提供实用的减肥建议
- 关注健康而不是体重数字
- 给予情感支持
- 使用亲切、友善的语气
- 在适当的时候使用鼓励的表情符号"

/-- The `nutritionist` system prompt (src/lib/doubao.ts lines 187-192). -/
def nutritionistPrompt : String :=
  "你是一名专业的营养师，专门帮助用户制定健康的饮食计划。你的特点是：
- 提供科学、准确的营养建议
- 制定合理的饮食计划
- 解释食物的营养价值
- 给出健康食谱建议
- 专业但不失亲和力"

/-- The `fitness_trainer` system prompt (src/lib/doubao.ts lines 194-199). -/
def fitnessTrainerPrompt : String :=
  "你是一名专业的健身教练，帮助用户制定运动计划。你的特点是：
- 提供专业的运动指导
- 制定适合的运动计划
- 解释动作要点和注意事项
- 鼓励用户坚持运动
- 关注运动安全和效果"

/-- The ECMA-262 member names of `Object.prototype`, the prototype of the
`systemPrompts` object literal.  Getting any of them on a plain object yields
a truthy value (a built-in function, or — for the `__proto__` accessor —
`Object.prototype` itself), never `undefined`. -/
def objectPrototypeMembers : List String :=
  ["constructor", "hasOwnProperty", "isPrototypeOf", "propertyIsEnumerable",
   "toLocaleString", "toString", "valueOf", "__proto__",
   "__defineGetter__", "__defineSetter__", "__lookupGetter__", "__lookupSetter__"]

/-- The value of `systemPrompts[role] || systemPrompts.supportive_friend`:
one of the three own prompt strings, or a truthy non-string member inherited
from `Object.prototype` (identified by its property name). -/
inductive PromptLookup where
  | text (s : String)
  | protoMember (name : String)
  deriving Repr, DecidableEq

/-- `systemPrompts[role as keyof typeof systemPrompts] ||
systemPrompts.supportive_friend` (src/lib/doubao.ts line 202) with full
JavaScript property-access semantics: the three own keys are consulted
first, then the `Object.prototype` chain — whose members are all truthy, so
for those twelve names the `||` fallback does not fire and the looked-up
value is the inherited non-string member; only a lookup that yields
`undefined` falls back to the supportive-friend prompt. -/
def systemPromptLookup (role : String) : PromptLookup :=
  if role = "supportive_friend" then .text supportiveFriendPrompt
  else if role = "nutritionist" then .text nutritionistPrompt
  else if role = "fitness_trainer" then .text fitnessTrainerPrompt
  else if role ∈ objectPrototypeMembers then .protoMember role
  else .text supportiveFriendPrompt

/-- The string carried by the system message in the embedding: the
projection of `systemPromptLookup` that coincides with the program for every
role string except the twelve `Object.prototype` member names (see
`systemPromptFor_agrees_with_lookup`; on those names the real program places
the inherited non-string member in the system message instead).  The
orchestrator claims proved below do not depend on this value. -/
def systemPromptFor (role : String) : String :=
  if role = "supportive_friend" then supportiveFriendPrompt
  else if role = "nutritionist" then nutritionistPrompt
  else if role = "fitness_trainer" then fitnessTrainerPrompt
  else supportiveFriendPrompt

/-- The message list built at src/lib/doubao.ts lines 204-208:
`[{ role: 'system', content: systemPrompt }, ...conversationHistory,
{ role: 'user', content: userMessage }]`.  The spread copies
`conversationHistory` into a fresh array (no mutation). -/
def assembleMessages (role : String) (conversationHistory : List ChatMessage)
    (userMessage : String) : List ChatMessage :=
  { role := .system, content := .str (systemPromptFor role) } ::
    (conversationHistory ++ [{ role := .user, content := .str userMessage }])

/-- The canned reply returned when the completion call throws
(src/lib/doubao.ts line 258). -/
def apologyReply : String :=
  "抱歉，遇到了一些技术问题。请稍后再试，或者联系开发者获得帮助。"

/-- The fallback reply returned when the completion succeeds but `choices`
is missing or empty (src/lib/doubao.ts line 244). -/
def unavailableReply : String :=
  "抱歉，我现在无法回应。请稍后再试。"

/-- The value `weightLossChat` resolves to: `{ content, images? }`;
`images := none` embeds the `undefined` field. -/
structure WeightLossResult where
  content : String
  images : Option (List String)
  deriving Repr, DecidableEq

/-- Instrumentation recording which helpers a `weightLossChat` run invoked:
whether the food classifier (`extractFoodDescription`/`detectFoodKeywords`)
ran, and whether `generateFoodImage` was called. -/
structure CallTrace where
  classifierCalled : Bool
  imageCalled : Bool
  deriving Repr, DecidableEq

/-- `weightLossChat` (src/lib/doubao.ts lines 176-260).  The two network
calls are passed as explicit outcome functions: `chatCompletion` receives the
assembled message list and yields the completion response or the thrown
error; `generateFoodImage` receives the extracted food description and
yields the image URL list or the thrown error.  Returns the result paired
with the call trace. -/
def weightLossChat (userMessage : String) (conversationHistory : List ChatMessage)
    (role : String)
    (chatCompletion : List ChatMessage → Except String ChatCompletionResponse)
    (generateImagesCall : String → Except String (List String)) :
    WeightLossResult × CallTrace :=
  let messages := assembleMessages role conversationHistory userMessage
  match chatCompletion messages with
  | .ok response =>
    match response.choices with
    | some (choice :: _) =>
      let textContent := textOfContent choice.message.content
      let foodDescription := extractFoodDescription userMessage
      if foodDescription != "" && detectFoodKeywords userMessage then
        let images :=
          match generateImagesCall foodDescription with
          | .ok imgs => imgs
          | .error _ => []
        ({ content := textContent,
           images := if images.length > 0 then some images else none },
         { classifierCalled := true, imageCalled := true })
      else
        ({ content := textContent, images := none },
         { classifierCalled := true, imageCalled := false })
    | _ =>
      ({ content := unavailableReply, images := none },
       { classifierCalled := false, imageCalled := false })
  | .error _ =>
    ({ content := apologyReply, images := none },
     { classifierCalled := false, imageCalled := false })

/-! ## Image client (src/lib/doubao.ts, doubao-image part) -/

/-- One element of `ImageGenerationResponse.data`:
`{ url?, b64_json?, revised_prompt?, index }`.  The upstream JSON is cast
unchecked, so every field is modelled as optional. -/
structure ImageDataItem where
  url : Option String
  b64_json : Option String
  revised_prompt : Option String
  index : Option Nat
  deriving Repr, DecidableEq

/-- `ImageGenerationResponse`, restricted to the one field
`generateFoodImage` reads.  The response JSON is cast unchecked
(`await response.json()` typed as `ImageGenerationResponse`), so the
`data` array may be absent at runtime; absence is modelled by `none`. -/
structure ImageGenerationResponse where
  data : Option (List ImageDataItem)
  deriving Repr, DecidableEq

/-- `buildFoodPrompt` (src/lib/doubao.ts, doubao-image part, lines 416-430):
wraps the food description in the fixed photography prompt template. -/
def buildFoodPrompt (foodDescription : String) : String :=
  "Generate a high-quality, appetizing food photograph of: " ++ foodDescription ++
  "

Requirements:
- Make the food look delicious and professionally photographed
- Use warm, appetizing lighting
- Style: Food photography, restaurant menu quality
- Background: Clean, simple, food-related background
- Colors: Natural, realistic food colors
- Composition: Centered, well-lit, appetizing presentation
- No text, watermarks (except the default API watermark), or signatures
- Focus on making the food look tasty and appealing

The image should be suitable for a food blog or restaurant menu and make viewers want to eat this food."

/-- The URL-collection loop of `generateFoodImage` (src/lib/doubao.ts,
doubao-image part, lines 385-392): `data.data.forEach(item => { if (item.url)
imageUrls.push(item.url) })` — the truthiness test skips both an absent and
an empty `url`. -/
def collectUrls (items : List ImageDataItem) : List String :=
  items.foldl (fun acc item =>
    match item.url with
    | some u => if u = "" then acc else acc ++ [u]
    | none => acc) []

/-- The response handling of `generateFoodImage` after a decoded 2xx
response (src/lib/doubao.ts, doubao-image part, lines 382-399):
`if (data.data && data.data.length > 0)` collect the truthy URLs, else
leave `imageUrls` empty. -/
def extractImageUrls (resp : ImageGenerationResponse) : List String :=
  match resp.data with
  | some items => if items.length > 0 then collectUrls items else []
  | none => []

/-- `generateFoodImage` (src/lib/doubao.ts, doubao-image part,
lines 336-411).  The network call is passed as an explicit outcome function
from the built prompt: `.error` stands for a thrown fetch error, a non-2xx
status, or a JSON decode failure (all of which the source rethrows);
`.ok resp` stands for a decoded 2xx response.  An empty API key throws
before any network call. -/
def generateFoodImage (apiKey : String)
    (fetchImages : String → Except String ImageGenerationResponse)
    (foodDescription : String) : Except String (List String) :=
  if apiKey = "" then .error "豆包图片生成API key not configured"
  else
    let foodPrompt := buildFoodPrompt foodDescription
    match fetchImages foodPrompt with
    | .ok data => .ok (extractImageUrls data)
    | .error e => .error e

/-! ## POST /chat handler (src/app/api/chat/route.ts lines 4-53) -/

/-- JSON values, the possible results of `await request.json()`. -/
inductive Json where
  | null
  | bool (b : Bool)
  | num (n : Int)
  | str (s : String)
  | arr (elems : List Json)
  | obj (fields : List (String × Json))

/-- Property lookup in a JSON object (first binding wins; `JSON.parse`
keeps one binding per key). -/
def getField (fields : List (String × Json)) (name : String) : Option Json :=
  (fields.find? (fun f => f.1 == name)).map (fun f => f.2)

/-- JavaScript property access as performed by the destructuring
`const { message, conversationHistory = [], role = ... } = body` on a
non-null body: objects yield their named property, primitives and arrays
yield `undefined` for these three names. -/
def bodyField (body : Json) (name : String) : Option Json :=
  match body with
  | .obj fields => getField fields name
  | _ => none

/-- The observable outcome of one `POST /chat` run, up to the point where
control would pass to `weightLossChat`:
`badRequest e` = a 400 response with error `e` and no upstream call;
`proceed m h r` = validation passed and `weightLossChat(m, h, r)` is invoked
(the only place an upstream completion or image call can happen);
`serverError` = the outer catch produced a 500 response without reaching
`weightLossChat`. -/
inductive RouteResult where
  | badRequest (error : String)
  | proceed (message : String) (history : List Json) (role : Json)
  | serverError

/-- True iff the run reaches the `weightLossChat` invocation (and hence may
make upstream calls). -/
def invokesUpstream : RouteResult → Bool
  | .proceed _ _ _ => true
  | _ => false

/-- The `POST` handler of src/app/api/chat/route.ts on a decoded JSON body:
destructuring a `null` body throws a `TypeError`, which the outer `catch`
turns into a 500; otherwise `message` must be a truthy string
(`if (!message || typeof message !== 'string')`) and `conversationHistory`
(defaulted to `[]` when absent) must be an array, each violation yielding a
400; validation success invokes `weightLossChat`. -/
def handlePost (body : Json) : RouteResult :=
  match body with
  | .null => RouteResult.serverError
  | _ =>
    match bodyField body "message" with
    | some (Json.str s) =>
      if s = "" then RouteResult.badRequest "Invalid message parameter"
      else
        match (bodyField body "conversationHistory").getD (Json.arr []) with
        | Json.arr elems =>
          RouteResult.proceed s elems
            ((bodyField body "role").getD (Json.str "supportive_friend"))
        | _ => RouteResult.badRequest "Invalid conversationHistory parameter"
    | _ => RouteResult.badRequest "Invalid message parameter"

/-- Decides `if (!message || typeof message !== 'string')` negatively up to
the presence test: true iff the `message` property is absent or holds a
non-string value. -/
def messageAbsentOrNonString (body : Json) : Bool :=
  match bodyField body "message" with
  | some (Json.str _) => false
  | _ => true

/-- True iff the `conversationHistory` property is present and holds a
non-array value. -/
def historyPresentNonArray (body : Json) : Bool :=
  match bodyField body "conversationHistory" with
  | some (Json.arr _) => false
  | none => false
  | some _ => true

/-- The truthy URL of one image result entry: `if (item.url)` keeps a `url`
field that is present and non-empty. -/
def truthyUrl (item : ImageDataItem) : Option String :=
  match item.url with
  | some u => if u = "" then none else some u
  | none => none

/-! ## Helper lemmas -/

/-- Characters of a Boolean prefix are characters of the whole list. -/
theorem mem_of_isPrefixOf {l1 l2 : List Char} (h : l1.isPrefixOf l2 = true)
    {a : Char} (ha : a ∈ l1) : a ∈ l2 := by
  have h2 : l1 <+: l2 := by
    rw [← List.isPrefixOf_iff_prefix]
    exact h
  exact h2.subset ha

/-- A single-character pattern is contained in a list iff the character
occurs in it. -/
theorem not_mem_of_not_containsSub {l : List Char} {a : Char}
    (h : listContainsSub l [a] = false) : a ∉ l := by
  induction l with
  | nil => simp
  | cons c t ih =>
    intro hm
    rw [listContainsSub] at h
    simp only [Bool.or_eq_false_iff] at h
    obtain ⟨h1, h2⟩ := h
    rcases List.mem_cons.mp hm with rfl | hm2
    · simp [ List.isPrefixOf] at h1
    · exact ih h2 hm2

/-- `matchAfterTrigger` cannot match when some character of the trigger does
not occur in the text. -/
theorem matchAfterTrigger_none {trig : List Char} {a : Char} (ha : a ∈ trig) :
    ∀ {text : List Char}, a ∉ text → matchAfterTrigger trig text = none := by
  intro text
  induction text with
  | nil => intro _; rfl
  | cons c t ih =>
    intro hx
    have hp : trig.isPrefixOf (c :: t) = false := by
      cases hEq : trig.isPrefixOf (c :: t) with
      | false => rfl
      | true => exact absurd (mem_of_isPrefixOf hEq ha) hx
    have ht : a ∉ t := fun hm => hx (List.mem_cons_of_mem c hm)
    simp [matchAfterTrigger, hp, ih ht]

/-- The lazy loop of `(.+?)trigger` cannot succeed when some character of
the trigger does not occur in the remaining text. -/
theorem goBefore_none {trig : List Char} {a : Char} (ha : a ∈ trig) :
    ∀ {text : List Char}, a ∉ text → ∀ acc, goBefore trig acc text = none := by
  intro text
  induction text with
  | nil => intro _ acc; rfl
  | cons c t ih =>
    intro hx acc
    have hp : trig.isPrefixOf t = false := by
      cases hEq : trig.isPrefixOf t with
      | false => rfl
      | true => exact absurd (List.mem_cons_of_mem c (mem_of_isPrefixOf hEq ha)) hx
    have ht : a ∉ t := fun hm => hx (List.mem_cons_of_mem c hm)
    by_cases hd : isDotChar c = true
    · simp [goBefore, hd, hp, ih ht]
    · simp [goBefore, hd]

/-- `matchBeforeTrigger` cannot match when some character of the trigger
does not occur in the text. -/
theorem matchBeforeTrigger_none {trig : List Char} {a : Char} (ha : a ∈ trig) :
    ∀ {text : List Char}, a ∉ text → matchBeforeTrigger trig text = none := by
  intro text
  induction text with
  | nil => intro _; rfl
  | cons c t ih =>
    intro hx
    have ht : a ∉ t := fun hm => hx (List.mem_cons_of_mem c hm)
    simp [matchBeforeTrigger, goBefore_none ha hx, ih ht]

/-- The URL-collection loop is the order-preserving filter of the truthy
URLs. -/
theorem collectUrls_eq_filterMap (items : List ImageDataItem) :
    collectUrls items = items.filterMap truthyUrl := by
  suffices h : ∀ acc : List String,
      items.foldl (fun acc item =>
        match item.url with
        | some u => if u = "" then acc else acc ++ [u]
        | none => acc) acc = acc ++ items.filterMap truthyUrl by
    simpa [collectUrls] using h []
  induction items with
  | nil => intro acc; simp
  | cons it its ih =>
    intro acc
    rw [List.foldl_cons, List.filterMap_cons]
    cases hu : it.url with
    | none => simp only [truthyUrl, hu]; exact ih acc
    | some u =>
      by_cases he : u = ""
      · simp only [truthyUrl, hu, he, if_pos rfl]
        simpa [he] using ih acc
      · simp only [truthyUrl, hu, if_neg he]
        rw [ih (acc ++ [u])]
        simp

/-! ## Claim theorems -/

/-- C1: for every user message, role and history, if the completion call
throws, `weightLossChat` does not propagate the error: it returns the fixed
canned apology as `content` with no images (`images := none` embeds the
absent `images` field), and — being a total function of the failure outcome —
no exception escapes; neither the classifier nor the image call runs. -/
theorem weightLossChat_chat_failure_apology (userMessage : String)
    (conversationHistory : List ChatMessage) (role e : String)
    (generateImagesCall : String → Except String (List String)) :
    weightLossChat userMessage conversationHistory role
      (fun _ => Except.error e) generateImagesCall =
      ({ content := apologyReply, images := none },
       { classifierCalled := false, imageCalled := false }) := rfl

/-- C2: for every user message whose completion succeeds with a non-empty
`choices` list, if the image-generation call throws, `weightLossChat`
returns the actual completion reply (the first choice's content, serialized
if structured) with no images; the image failure never alters the reply and
never propagates. -/
theorem weightLossChat_image_failure_keeps_reply (userMessage : String)
    (conversationHistory : List ChatMessage) (role e : String)
    (resp : ChatCompletionResponse) (choice : ChatChoice) (rest : List ChatChoice)
    (hc : resp.choices = some (choice :: rest)) :
    (weightLossChat userMessage conversationHistory role
      (fun _ => Except.ok resp) (fun _ => Except.error e)).1 =
      { content := textOfContent choice.message.content, images := none } := by
  simp only [weightLossChat, hc]
  split <;> simp

/-- Witness for C2 at a food-mentioning message, so that the failing image
call is actually reached. -/
theorem weightLossChat_image_failure_keeps_reply_witness :
    (weightLossChat "想吃披萨" [] "supportive_friend"
      (fun _ => Except.ok {
        choices := some [{
          index := 0,
          message := { role := .assistant, content := .str "好的" },
          finish_reason := "stop" }] })
      (fun _ => Except.error "boom")).1 =
      { content := "好的", images := none } :=
  weightLossChat_image_failure_keeps_reply "想吃披萨" [] "supportive_friend" "boom"
    { choices := some [{
        index := 0,
        message := { role := .assistant, content := .str "好的" },
        finish_reason := "stop" }] }
    { index := 0,
      message := { role := .assistant, content := .str "好的" },
      finish_reason := "stop" }
    [] rfl

/-- C6: for every role mode, history and user message, the assembled message
sequence equals `[systemMessage] ++ history ++ [newUserMessage]` (so it has
`history.length + 2` entries, with the system prompt first, the history
unchanged in the middle and the new user message last); the history list is
a value, so the input is not mutated. -/
theorem assembleMessages_spec (role : String) (hist : List ChatMessage)
    (msg : String) :
    assembleMessages role hist msg =
      [{ role := ChatRole.system, content := .str (systemPromptFor role) }] ++
        hist ++ [{ role := ChatRole.user, content := .str msg }] ∧
    (assembleMessages role hist msg).length = hist.length + 2 := by
  constructor
  · simp [assembleMessages]
  · simp [assembleMessages]

/-- Outside the `Object.prototype` member names, the string-level helper
`systemPromptFor` used in the message embedding agrees with the faithful
property lookup. -/
theorem systemPromptFor_agrees_with_lookup (r : String)
    (h : r ∉ objectPrototypeMembers) :
    systemPromptLookup r = PromptLookup.text (systemPromptFor r) := by
  unfold systemPromptLookup systemPromptFor
  by_cases h1 : r = "supportive_friend"
  · simp [h1]
  by_cases h2 : r = "nutritionist"
  · simp [h1, h2]
  by_cases h3 : r = "fitness_trainer"
  · simp [h1, h2, h3]
  simp [h1, h2, h3, h]

/-- C7 counterexample: the role string `"constructor"` is not one of the
three recognized values, yet the lookup `systemPrompts["constructor"]`
yields the truthy inherited `Object.prototype.constructor`, so the `||`
fallback does not fire and the assembler does not use the supportive-friend
prompt. -/
theorem systemPromptLookup_constructor_not_fallback :
    systemPromptLookup "constructor" = PromptLookup.protoMember "constructor" ∧
    systemPromptLookup "constructor" ≠ PromptLookup.text supportiveFriendPrompt := by
  constructor
  · decide
  · decide

/-- C7 amended: for every role-mode string that is neither one of the three
recognized values nor the name of an `Object.prototype` member, the lookup
falls back to the supportive-friend prompt; each of the three recognized
values yields its own fixed prompt; for the twelve `Object.prototype` member
names the lookup instead yields the truthy inherited member, so the
supportive-friend fallback does not fire.  The lookup is total in every
case, so it never fails. -/
theorem systemPromptLookup_fallback_spec :
    (∀ r : String, r ≠ "supportive_friend" → r ≠ "nutritionist" →
      r ≠ "fitness_trainer" → r ∉ objectPrototypeMembers →
      systemPromptLookup r = PromptLookup.text supportiveFriendPrompt) ∧
    systemPromptLookup "supportive_friend" = PromptLookup.text supportiveFriendPrompt ∧
    systemPromptLookup "nutritionist" = PromptLookup.text nutritionistPrompt ∧
    systemPromptLookup "fitness_trainer" = PromptLookup.text fitnessTrainerPrompt ∧
    (∀ r ∈ objectPrototypeMembers, systemPromptLookup r = PromptLookup.protoMember r) := by
  refine ⟨fun r h1 h2 h3 h4 => ?_, rfl, ?_, ?_, ?_⟩
  · unfold systemPromptLookup
    rw [if_neg h1, if_neg h2, if_neg h3, if_neg h4]
  · unfold systemPromptLookup
    rw [if_neg (by decide), if_pos rfl]
  · unfold systemPromptLookup
    rw [if_neg (by decide), if_neg (by decide), if_pos rfl]
  · decide

/-- Witness for C7's amended theorem at the unrecognized, non-prototype role
mode string `"coach"`. -/
theorem systemPromptLookup_fallback_spec_witness :
    systemPromptLookup "coach" = PromptLookup.text supportiveFriendPrompt :=
  systemPromptLookup_fallback_spec.1 "coach" (by decide) (by decide) (by decide)
    (by decide)

/-- C8: for every user message in which the classifier detects no food
keywords, a full `weightLossChat` run never invokes the image-generation
call, whatever the completion call's outcome. -/
theorem no_food_keywords_no_image_call (userMessage : String)
    (conversationHistory : List ChatMessage) (role : String)
    (chatCompletion : List ChatMessage → Except String ChatCompletionResponse)
    (generateImagesCall : String → Except String (List String))
    (h : detectFoodKeywords userMessage = false) :
    (weightLossChat userMessage conversationHistory role chatCompletion
      generateImagesCall).2.imageCalled = false := by
  simp only [weightLossChat]
  cases hc : chatCompletion (assembleMessages role conversationHistory userMessage) with
  | error e => rfl
  | ok resp =>
    cases hch : resp.choices with
    | none => simp [hch]
    | some l =>
      cases l with
      | nil => simp [hch]
      | cons c cs => simp [hch, h]

/-- Witness for C8 at a food-free message and a successful completion. -/
theorem no_food_keywords_no_image_call_witness :
    (weightLossChat "你好" [] "supportive_friend"
      (fun _ => Except.ok {
        choices := some [{
          index := 0,
          message := { role := .assistant, content := .str "你好呀" },
          finish_reason := "stop" }] })
      (fun _ => Except.ok ["https://a/1.png"])).2.imageCalled = false :=
  no_food_keywords_no_image_call "你好" [] "supportive_friend"
    (fun _ => Except.ok {
      choices := some [{
        index := 0,
        message := { role := .assistant, content := .str "你好呀" },
        finish_reason := "stop" }] })
    (fun _ => Except.ok ["https://a/1.png"]) (by decide)

/-- C10: for every run whose completion call returns successfully but with
`choices` missing or empty, `weightLossChat` returns the fixed fallback
string (distinct from the apology used on thrown errors) with no images,
and neither the classifier nor the image call is invoked. -/
theorem weightLossChat_empty_choices_fallback (userMessage : String)
    (conversationHistory : List ChatMessage) (role : String)
    (generateImagesCall : String → Except String (List String))
    (resp : ChatCompletionResponse)
    (hc : resp.choices = none ∨ resp.choices = some []) :
    weightLossChat userMessage conversationHistory role
      (fun _ => Except.ok resp) generateImagesCall =
      ({ content := unavailableReply, images := none },
       { classifierCalled := false, imageCalled := false }) ∧
    unavailableReply ≠ apologyReply := by
  constructor
  · rcases hc with h | h <;> simp [weightLossChat, h]
  · decide

/-- Witness for C10 at a response with `choices` absent. -/
theorem weightLossChat_empty_choices_fallback_witness :
    weightLossChat "你好" [] "supportive_friend"
      (fun _ => Except.ok { choices := none }) (fun _ => Except.ok []) =
      ({ content := unavailableReply, images := none },
       { classifierCalled := false, imageCalled := false }) ∧
    unavailableReply ≠ apologyReply :=
  weightLossChat_empty_choices_fallback "你好" [] "supportive_friend"
    (fun _ => Except.ok []) { choices := none } (Or.inl rfl)

/-- C3 counterexample: on a decoded 2xx response whose `data` array is
missing, `generateFoodImage` does not fail hard — it silently returns the
empty URL list, contradicting the claimed `UpstreamError`. -/
theorem generateFoodImage_missing_data_silent_empty :
    generateFoodImage "test-key" (fun _ => Except.ok { data := none }) "披萨" =
      Except.ok [] := rfl

/-- C3 amended: for every decoded 2xx image response, `generateFoodImage`
returns exactly the present, non-empty `url` fields of the `data` entries in
response order (the truthiness test skips absent and empty URLs); when the
`data` array is missing or empty the result is the empty list, not an
error. -/
theorem generateFoodImage_success_urls (apiKey : String) (h : apiKey ≠ "")
    (resp : ImageGenerationResponse) (foodDescription : String) :
    generateFoodImage apiKey (fun _ => Except.ok resp) foodDescription =
      Except.ok ((resp.data.getD []).filterMap truthyUrl) := by
  simp only [generateFoodImage, if_neg h]
  cases hd : resp.data with
  | none => simp [extractImageUrls, hd]
  | some items =>
    cases items with
    | nil => simp [extractImageUrls, hd]
    | cons i is => simp [extractImageUrls, hd, collectUrls_eq_filterMap]

/-- Witness for C3's amended theorem: a response with a URL-less entry
between two URL-bearing entries yields exactly the two URLs in order. -/
theorem generateFoodImage_success_urls_witness :
    generateFoodImage "test-key"
      (fun _ => Except.ok {
        data := some [
          { url := some "https://a/1.png", b64_json := none,
            revised_prompt := none, index := some 0 },
          { url := none, b64_json := some "QUJD",
            revised_prompt := none, index := some 1 },
          { url := some "https://a/2.png", b64_json := none,
            revised_prompt := none, index := some 2 } ] })
      "披萨" =
      Except.ok ["https://a/1.png", "https://a/2.png"] := by
  rw [generateFoodImage_success_urls "test-key" (by decide)]
  rfl

/-- C4 counterexample: for the input `"I want to eat 披萨"` the extractor
does not return `"披萨"` (and no extraction rule matches at all, as every
rule requires one of the Chinese trigger markers). -/
theorem extract_pizza_english_not_captured :
    extractFoodDescription "I want to eat 披萨" ≠ "披萨" := by decide

/-- C4 amended: for the input `"I want to eat 披萨"`, `detect` returns true
(the keyword set contains `want to eat` and `披萨`), but no extraction rule
matches — the rules trigger only on the Chinese markers 想吃/吃了/吃/好吃 —
so `extract` falls back and returns the entire input string verbatim. -/
theorem detect_extract_pizza_english :
    detectFoodKeywords "I want to eat 披萨" = true ∧
    extractFoodDescription "I want to eat 披萨" = "I want to eat 披萨" := by
  constructor
  · decide
  · decide

/-- C5: for every input text in which no member of the fixed food-keyword
set occurs as a case-folded substring, `detect` returns false and `extract`
returns the empty string (every extraction rule needs the character 吃,
which is itself a keyword, so none can match either). -/
theorem no_keyword_detect_false_extract_empty (text : String)
    (h : ∀ kw ∈ foodKeywords, strIncludes (lowerStr text) (lowerStr kw) = false) :
    detectFoodKeywords text = false ∧ extractFoodDescription text = "" := by
  have hdet : detectFoodKeywords text = false := by
    unfold detectFoodKeywords
    simp only [List.any_eq_false]
    intro kw hkw
    simp [h kw hkw]
  have hchi : ('吃' : Char) ∉ text.data := by
    have h1 : strIncludes (lowerStr text) (lowerStr "吃") = false :=
      h "吃" (by decide)
    have h2 : listContainsSub (text.data.map Char.toLower) ['吃'] = false := h1
    intro hm
    have h3 : ('吃' : Char) ∈ text.data.map Char.toLower := by
      have h4 := List.mem_map_of_mem Char.toLower hm
      simpa using h4
    exact absurd h3 (not_mem_of_not_containsSub h2)
  have hm1 : ('吃' : Char) ∈ "想吃".data := by decide
  have hm2 : ('吃' : Char) ∈ "吃了".data := by decide
  have hm3 : ('吃' : Char) ∈ "吃".data := by decide
  have hm4 : ('吃' : Char) ∈ "好吃".data := by decide
  have hp1 : matchAfterTrigger "想吃".data text.data = none :=
    matchAfterTrigger_none hm1 hchi
  have hp2 : matchAfterTrigger "吃了".data text.data = none :=
    matchAfterTrigger_none hm2 hchi
  have hp3 : matchAfterTrigger "吃".data text.data = none :=
    matchAfterTrigger_none hm3 hchi
  have hp4 : matchBeforeTrigger "好吃".data text.data = none :=
    matchBeforeTrigger_none hm4 hchi
  have hp5 : matchBeforeTrigger "想吃".data text.data = none :=
    matchBeforeTrigger_none hm1 hchi
  refine ⟨hdet, ?_⟩
  unfold extractFoodDescription
  simp [eatPatterns, tryPatterns, hp1, hp2, hp3, hp4, hp5, hdet]

set_option maxRecDepth 8192 in
/-- Witness for C5 at the keyword-free greeting `"你好"`. -/
theorem no_keyword_detect_false_extract_empty_witness :
    detectFoodKeywords "你好" = false ∧ extractFoodDescription "你好" = "" :=
  no_keyword_detect_false_extract_empty "你好" (by decide)

/-- C9 counterexample: for the valid JSON request body `null` the `message`
property is absent, yet the handler does not return 400 — destructuring the
null body throws a `TypeError`, which the outer catch converts into a 500
response (still with no upstream call). -/
theorem handlePost_null_body_500 :
    handlePost Json.null = RouteResult.serverError := rfl

/-- C9 amended: for every `POST /chat` request body other than JSON `null`,
if `message` is absent or not a string, or `conversationHistory` is present
and not an array, the handler returns status 400 with one of the two fixed
error strings and never reaches the `weightLossChat` call (so no upstream
completion or image call is attempted); the JSON `null` body instead yields
a 500, also without any upstream call. -/
theorem handlePost_invalid_input_400 (body : Json) (hnull : body ≠ Json.null)
    (h : messageAbsentOrNonString body = true ∨ historyPresentNonArray body = true) :
    (handlePost body = RouteResult.badRequest "Invalid message parameter" ∨
     handlePost body = RouteResult.badRequest "Invalid conversationHistory parameter") ∧
    invokesUpstream (handlePost body) = false := by
  cases body with
  | null => exact absurd rfl hnull
  | bool b => exact ⟨Or.inl rfl, rfl⟩
  | num n => exact ⟨Or.inl rfl, rfl⟩
  | str s => exact ⟨Or.inl rfl, rfl⟩
  | arr es => exact ⟨Or.inl rfl, rfl⟩
  | obj fields =>
    cases hm : getField fields "message" with
    | none =>
      have e : handlePost (Json.obj fields) =
          RouteResult.badRequest "Invalid message parameter" := by
        simp [handlePost, bodyField, hm]
      rw [e]
      exact ⟨Or.inl rfl, rfl⟩
    | some j =>
      have hgen : messageAbsentOrNonString (Json.obj fields) = true →
          (handlePost (Json.obj fields) =
             RouteResult.badRequest "Invalid message parameter" ∨
           handlePost (Json.obj fields) =
             RouteResult.badRequest "Invalid conversationHistory parameter") ∧
          invokesUpstream (handlePost (Json.obj fields)) = false := by
        intro _
        cases j with
        | null =>
          refine ⟨Or.inl ?_, ?_⟩ <;> simp [handlePost, bodyField, hm, invokesUpstream]
        | bool b =>
          refine ⟨Or.inl ?_, ?_⟩ <;> simp [handlePost, bodyField, hm, invokesUpstream]
        | num n =>
          refine ⟨Or.inl ?_, ?_⟩ <;> simp [handlePost, bodyField, hm, invokesUpstream]
        | str s => simp [messageAbsentOrNonString, bodyField, hm] at *
        | arr es2 =>
          refine ⟨Or.inl ?_, ?_⟩ <;> simp [handlePost, bodyField, hm, invokesUpstream]
        | obj fl =>
          refine ⟨Or.inl ?_, ?_⟩ <;> simp [handlePost, bodyField, hm, invokesUpstream]
      cases j with
      | str s =>
        have hh : historyPresentNonArray (Json.obj fields) = true := by
          rcases h with h | h
          · rw [messageAbsentOrNonString] at h
            simp [bodyField, hm] at h
          · exact h
        by_cases hs : s = ""
        · have e : handlePost (Json.obj fields) =
              RouteResult.badRequest "Invalid message parameter" := by
            simp [handlePost, bodyField, hm, hs]
          rw [e]
          exact ⟨Or.inl rfl, rfl⟩
        · cases hch : getField fields "conversationHistory" with
          | none =>
            rw [historyPresentNonArray] at hh
            simp [bodyField, hch] at hh
          | some cj =>
            have hcjr : ∀ es2 : List Json, cj ≠ Json.arr es2 := by
              intro es2 hEq
              subst hEq
              rw [historyPresentNonArray] at hh
              simp [bodyField, hch] at hh
            have e : handlePost (Json.obj fields) =
                RouteResult.badRequest "Invalid conversationHistory parameter" := by
              cases cj with
              | arr es2 => exact absurd rfl (hcjr es2)
              | null => simp [handlePost, bodyField, hm, hch, hs]
              | bool b => simp [handlePost, bodyField, hm, hch, hs]
              | num n => simp [handlePost, bodyField, hm, hch, hs]
              | str s2 => simp [handlePost, bodyField, hm, hch, hs]
              | obj fl => simp [handlePost, bodyField, hm, hch, hs]
            rw [e]
            exact ⟨Or.inr rfl, rfl⟩
      | null => exact hgen (by simp [messageAbsentOrNonString, bodyField, hm])
      | bool b => exact hgen (by simp [messageAbsentOrNonString, bodyField, hm])
      | num n => exact hgen (by simp [messageAbsentOrNonString, bodyField, hm])
      | arr es2 => exact hgen (by simp [messageAbsentOrNonString, bodyField, hm])
      | obj fl => exact hgen (by simp [messageAbsentOrNonString, bodyField, hm])

/-- Witness for C9's amended theorem at the empty-object body (message
absent). -/
theorem handlePost_invalid_input_400_witness :
    (handlePost (Json.obj []) = RouteResult.badRequest "Invalid message parameter" ∨
     handlePost (Json.obj []) = RouteResult.badRequest "Invalid conversationHistory parameter") ∧
    invokesUpstream (handlePost (Json.obj [])) = false :=
  handlePost_invalid_input_400 (Json.obj [])
    (fun hEq => Json.noConfusion hEq) (Or.inl rfl)

/-- Sanity checks of the regex embedding on positive concrete inputs: the
`想吃` and `吃了` rules capture up to the first terminator punctuation, and
the rule order makes `(.+?)好吃` fire only when no `吃`-prefixed rule can. -/
theorem extract_sanity_checks :
    extractFoodDescription "我想吃披萨，很开心" = "披萨" ∧
    extractFoodDescription "今天吃了火锅。真香" = "火锅" ∧
    extractFoodDescription "这家的面条好吃" = "这家的面条" := by
  refine ⟨by decide, by decide, by decide⟩
